import Mathlib

/-!
Verification of the rnaget-compliance-suite report pipeline
(`compliance_suite/cli.py`): the result aggregator `scan_for_errors`,
the report converter `convert_report_format`, and the setup/validation
phase of the `report` CLI entry point.

The raw result tree (a nested Python dict) is embedded as Lean
structures; Python dicts that the code iterates in insertion order are
embedded as association lists.  Wall-clock timestamps are embedded by
threading a tick counter through an abstract clock `Nat → Int`.
-/

/-- One fine-grained assertion record (`CaseRecord` of the raw tree):
fields `name`, `description`, `summary`, `status`, `audit`. -/
structure CaseRecord where
  name : String
  description : String
  summary : String
  status : Int
  audit : List String
deriving DecidableEq, Repr

/-- One executed test (`TestRecord` of the raw tree): fields `name`,
`description`, `text`, `result`, `parents`; the source reads its cases
through `test["message"]["api_component"]["cases"]`, embedded here as
the field `cases`. -/
structure TestRecord where
  name : String
  description : String
  text : String
  result : Int
  parents : List String
  cases : List CaseRecord
deriving DecidableEq, Repr

/-- `json["test_results"]`: object type → (object id → ordered TestRecords).
Each inner dict is an association list in insertion (iteration) order. -/
structure TestResults where
  projects : List (String × List TestRecord)
  studies : List (String × List TestRecord)
  expressions : List (String × List TestRecord)
  continuous : List (String × List TestRecord)
deriving DecidableEq, Repr

/-- One `high_level_summary` entry: `{'result': ..., 'name': ...}`. -/
structure SummaryEntry where
  result : Int
  name : String
deriving DecidableEq, Repr

/-- The raw result tree handed from the runner to `scan_for_errors` and
`convert_report_format`. -/
structure RawTree where
  server_name : String
  base_url : String
  test_results : TestResults
  high_level_summary : List (String × SummaryEntry)
deriving DecidableEq, Repr

/-- Python dict assignment `d[k] = v` on an insertion-ordered dict:
an existing key keeps its position and gets the new value, a new key is
appended at the end. -/
def dictInsert {α : Type} (d : List (String × α)) (k : String) (v : α) :
    List (String × α) :=
  if d.any (fun p => p.1 = k) then
    d.map (fun p => if p.1 = k then (k, v) else p)
  else
    d ++ [(k, v)]

/-- cli.py:47 and cli.py:249: `available_tests = ('project_get')`.
The parentheses do not make a tuple: this is the plain string. -/
def available_tests : String := "project_get"

/-- Python iteration over the string `available_tests` yields its
characters, each a 1-character string. -/
def availableTestNames : List String :=
  available_tests.toList.map (fun c => String.mk [c])

/-- cli.py:54-62: `result = 1`, then a loop whose conditional body is a
bare string literal (the downgrade logic is disabled), so the loop never
changes `result`. -/
def computeResult (high_level_name : String) (server_tests : List TestRecord) : Int :=
  server_tests.foldl
    (fun r test => if high_level_name ∈ test.parents then r else r) 1

/-- cli.py:53-66: the `for high_level_name in (available_tests)` loop for
one object id, updating the accumulated `high_level_summary` dict. -/
def scanObj (hls : List (String × SummaryEntry)) (server_tests : List TestRecord) :
    List (String × SummaryEntry) :=
  availableTestNames.foldl
    (fun acc high_level_name =>
      dictInsert acc high_level_name
        { result := computeResult high_level_name server_tests
          name := high_level_name })
    hls

/-- cli.py:50-68: the body of the `for obj_id` loop: update the summary
dict from this object id's tests and assign it into the tree. -/
def scanStep (st : List (String × SummaryEntry) × RawTree)
    (e : String × List TestRecord) :
    List (String × SummaryEntry) × RawTree :=
  let hls := scanObj st.1 e.2
  (hls, { st.2 with high_level_summary := hls })

/-- The `for obj_id in json["test_results"][obj_type].keys()` loop. -/
def scanFold (st : List (String × SummaryEntry) × RawTree)
    (entries : List (String × List TestRecord)) :
    List (String × SummaryEntry) × RawTree :=
  entries.foldl scanStep st

/-- cli.py:33-68 `scan_for_errors`: loops object types `projects`,
`studies`, `expressions` (not `continuous`), threading the summary dict
and the tree through each object id. -/
def scan_for_errors (json : RawTree) : RawTree :=
  (scanFold (scanFold (scanFold ([], json)
      json.test_results.projects)
      json.test_results.studies)
      json.test_results.expressions).2

/-- A failing `project_get` test record: result -1, parents
`["project_get"]`, one failing case with audit entries. -/
def failTestRecord : TestRecord :=
  { name := "Project Get"
    description := "Requests the project endpoint by id"
    text := "FAILED"
    result := -1
    parents := ["project_get"]
    cases := [{ name := "status code"
                description := "response status code is 200"
                summary := "expected 200, got 404"
                status := -1
                audit := ["GET /projects/123", "response: 404"] }] }

/-- A raw tree with a single project instance whose single test fails. -/
def cexTree1 : RawTree :=
  { server_name := "Server A"
    base_url := "http://localhost:5000/"
    test_results :=
      { projects := [("o1", [failTestRecord])]
        studies := []
        expressions := []
        continuous := [] }
    high_level_summary := [] }

lemma scanFold_frame (entries : List (String × List TestRecord)) :
    ∀ st : List (String × SummaryEntry) × RawTree,
      (scanFold st entries).2.server_name = st.2.server_name ∧
      (scanFold st entries).2.base_url = st.2.base_url ∧
      (scanFold st entries).2.test_results = st.2.test_results := by
  induction entries with
  | nil => intro st; exact ⟨rfl, rfl, rfl⟩
  | cons e rest ih =>
    intro st
    have h := ih (scanStep st e)
    simpa [scanFold, scanStep] using h

/-- Claim C9: `scan_for_errors` mutates at most the `high_level_summary`
field of its input tree; `server_name`, `base_url` and the whole
`test_results` subtree (every TestRecord and CaseRecord) are unchanged. -/
theorem scan_for_errors_frame (t : RawTree) :
    (scan_for_errors t).server_name = t.server_name ∧
    (scan_for_errors t).base_url = t.base_url ∧
    (scan_for_errors t).test_results = t.test_results := by
  unfold scan_for_errors
  obtain ⟨h1, h2, h3⟩ := scanFold_frame t.test_results.expressions
    (scanFold (scanFold ([], t) t.test_results.projects) t.test_results.studies)
  obtain ⟨g1, g2, g3⟩ := scanFold_frame t.test_results.studies
    (scanFold ([], t) t.test_results.projects)
  obtain ⟨f1, f2, f3⟩ := scanFold_frame t.test_results.projects ([], t)
  exact ⟨h1.trans (g1.trans f1), h2.trans (g2.trans f2), h3.trans (g3.trans f3)⟩

/-- Claim C1: on a tree whose single project test fails (result -1) and
declares parent capability `project_get`, the aggregator produces no
entry at all for `project_get` (the summary is keyed by the characters
of the string `available_tests`), and every entry it does produce has
result 1: the worst-status rollup never happens, so a capability with a
failing member still shows nothing but passes. -/
theorem scan_rollup_always_pass_cex :
    failTestRecord.result = -1 ∧
    "project_get" ∈ failTestRecord.parents ∧
    List.lookup "project_get" (scan_for_errors cexTree1).high_level_summary = none ∧
    ((scan_for_errors cexTree1).high_level_summary).all
      (fun p => p.2.result == 1) = true ∧
    (scan_for_errors cexTree1).high_level_summary ≠ [] := by
  refine ⟨rfl, by decide, by decide, by decide, by decide⟩

/-- Claim C5: on the same tree, the capability name `project_get`
appears in the parent list of an executed TestRecord of an object type
with an instance, yet the computed `high_level_summary` has no entry
keyed by it. -/
theorem scan_summary_missing_capability_cex :
    "project_get" ∈ failTestRecord.parents ∧
    cexTree1.test_results.projects ≠ [] ∧
    List.lookup "project_get" (scan_for_errors cexTree1).high_level_summary = none := by
  refine ⟨by decide, by decide, by decide⟩

/-- Terminal status of a ga4gh-testbed-lib Case
(`set_status_pass/skip/fail/unknown`). -/
inductive GStatus where
  | pass
  | skip
  | fail
  | unknown
deriving DecidableEq, Repr

/-- A ga4gh-testbed-lib Case as populated by `convert_report_format`:
`status = none` means no `set_status_*` setter was ever called. -/
structure GCase where
  case_name : String
  case_description : String
  message : String
  log_messages : List String
  status : Option GStatus
  end_time : Option Int
deriving DecidableEq, Repr

/-- A ga4gh-testbed-lib Test as populated by `convert_report_format`. -/
structure GTest where
  test_name : String
  test_description : String
  message : String
  cases : List GCase
  end_time : Option Int
deriving DecidableEq, Repr

/-- A ga4gh-testbed-lib Phase as populated by `convert_report_format`. -/
structure GPhase where
  start_time : Option Int
  phase_name : String
  tests : List GTest
  end_time : Option Int
deriving DecidableEq, Repr

/-- A ga4gh-testbed-lib Report as populated by `convert_report_format`. -/
structure GReport where
  start_time : Option Int
  testbed_name : String
  platform_name : String
  input_parameters : List (String × String)
  phases : List GPhase
  end_time : Option Int
  finalized : Bool
deriving DecidableEq, Repr

/-- An abstract wall clock: tick index → timestamp.  Every
`set_..._time_now()` call in the source reads the clock at the current
tick and advances the tick. -/
def Clock : Type := Nat → Int

/-- cli.py:293-300: the `if/elif` chain mapping a CaseRecord status code
to a Case terminal status.  There is no `else` branch: any other code
leaves the status unset (`none`). -/
def mapCaseStatus (status : Int) : Option GStatus :=
  if status = 1 then some GStatus.pass
  else if status = 0 then some GStatus.skip
  else if status = -1 then some GStatus.fail
  else if status = 2 then some GStatus.unknown
  else none

/-- cli.py:278-302: convert one CaseRecord and append it to the Case
list, consuming one clock tick for `set_end_time_now`. -/
def addCase (clock : Clock) (st : List GCase × Nat) (case : CaseRecord) :
    List GCase × Nat :=
  (st.1 ++ [{ case_name := case.name
              case_description := case.description
              message := case.summary
              log_messages := case.audit
              status := mapCaseStatus case.status
              end_time := some (clock st.2) }],
   st.2 + 1)

/-- cli.py:271-304: convert one TestRecord to a Test.  Its CaseRecords
are walked only under `if test["result"] != 0`. -/
def convertTest (clock : Clock) (test : TestRecord) (tick : Nat) :
    GTest × Nat :=
  let r := if test.result ≠ 0 then test.cases.foldl (addCase clock) ([], tick)
           else (([] : List GCase), tick)
  ({ test_name := test.name
     test_description := test.description
     message := test.text
     cases := r.1
     end_time := some (clock r.2) }, r.2 + 1)

/-- Append one converted Test to the Phase's test list. -/
def addTest (clock : Clock) (st : List GTest × Nat) (test : TestRecord) :
    List GTest × Nat :=
  let r := convertTest clock test st.2
  (st.1 ++ [r.1], r.2)

/-- cli.py:256-306: one Phase: start time, name, then the triple loop
`for obj_id` / `for high_level_name in (available_tests)` /
`for test in server_tests` adding one Test per iteration, then the
Phase end time. -/
def addPhase (clock : Clock) (st : List GPhase × Nat) (obj_type : String)
    (entries : List (String × List TestRecord)) : List GPhase × Nat :=
  let start := clock st.2
  let r := entries.foldl
    (fun acc e =>
      availableTestNames.foldl (fun a _ => e.2.foldl (addTest clock) a) acc)
    ([], st.2 + 1)
  (st.1 ++ [{ start_time := some start
              phase_name := obj_type
              tests := r.1
              end_time := some (clock r.2) }],
   r.2 + 1)

/-- cli.py:243-310 `convert_report_format`: build the Report, one Phase
per object type in the fixed order projects, studies, expressions,
continuous, then finalize. -/
def convert_report_format (clock : Clock) (json : RawTree) : GReport :=
  let start := clock 0
  let st1 := addPhase clock ([], 1) "projects" json.test_results.projects
  let st2 := addPhase clock st1 "studies" json.test_results.studies
  let st3 := addPhase clock st2 "expressions" json.test_results.expressions
  let st4 := addPhase clock st3 "continuous" json.test_results.continuous
  { start_time := some start
    testbed_name := "rnaget-compliance-suite"
    platform_name := json.server_name
    input_parameters := [("base_url", json.base_url)]
    phases := st4.1
    end_time := some (clock st4.2)
    finalized := true }

/-- A fixed clock for concrete evaluations. -/
def clock0 : Clock := fun _ => 0

/-- A raw tree whose single (failing) test has one CaseRecord with the
out-of-range status code 99. -/
def unmappedTree : RawTree :=
  { server_name := "Server A"
    base_url := "http://localhost:5000/"
    test_results :=
      { projects := [("o1", [{ name := "Project Get"
                               description := "d"
                               text := "t"
                               result := -1
                               parents := ["project_get"]
                               cases := [{ name := "c"
                                           description := "cd"
                                           summary := "cs"
                                           status := 99
                                           audit := ["a1"] }] }])]
        studies := []
        expressions := []
        continuous := [] }
    high_level_summary := [] }

/-- Claim C2: on a tree holding a CaseRecord with status code 99
(outside the closed set), `convert_report_format` raises no error: it
produces a finalized report in which that case appears with no status
set at all (the `if/elif` chain at cli.py:293-300 has no `else`). -/
theorem convert_unmapped_status_silent_cex :
    (convert_report_format clock0 unmappedTree).finalized = true ∧
    (convert_report_format clock0 unmappedTree).phases.map
      (fun ph => ph.tests.map (fun t => t.cases.map (fun c => c.status)))
      = [List.replicate 11 [(none : Option GStatus)], [], [], []] := by
  refine ⟨by decide, by decide⟩

/-- Claim C3: a tree holding exactly one TestRecord (under projects)
yields eleven Tests in the projects Phase, one per character of the
string `available_tests` — not one Test per TestRecord. -/
theorem convert_eleven_tests_per_record_cex :
    (cexTree1.test_results.projects.map (fun e => e.2.length)) = [1] ∧
    (convert_report_format clock0 cexTree1).phases.map
      (fun ph => ph.tests.length) = [11, 0, 0, 0] := by
  refine ⟨by decide, by decide⟩

lemma addPhase_map_phase_name (clock : Clock) (st : List GPhase × Nat)
    (obj_type : String) (entries : List (String × List TestRecord)) :
    ((addPhase clock st obj_type entries).1).map (fun p => p.phase_name) =
      st.1.map (fun p => p.phase_name) ++ [obj_type] := by
  simp [addPhase]

/-- Claim C6: for every clock and every raw tree, the report's Phases
are exactly one per object type, named projects, studies, expressions,
continuous, in that fixed order. -/
theorem convert_phase_order (clock : Clock) (json : RawTree) :
    (convert_report_format clock json).phases.map (fun p => p.phase_name) =
      ["projects", "studies", "expressions", "continuous"] := by
  simp [convert_report_format, addPhase_map_phase_name]

/-- Erase the Case timestamp. -/
def stripCase (c : GCase) : GCase := { c with end_time := none }

/-- Erase the Test timestamp and those of its Cases. -/
def stripTest (t : GTest) : GTest :=
  { t with cases := t.cases.map stripCase, end_time := none }

/-- Erase the Phase timestamps and those below it. -/
def stripPhase (p : GPhase) : GPhase :=
  { p with start_time := none, tests := p.tests.map stripTest, end_time := none }

/-- Erase every timestamp of a Report. -/
def stripReport (r : GReport) : GReport :=
  { r with start_time := none, phases := r.phases.map stripPhase, end_time := none }

/-- The clock-free value of one converted Case. -/
def pureCase (case : CaseRecord) : GCase :=
  { case_name := case.name
    case_description := case.description
    message := case.summary
    log_messages := case.audit
    status := mapCaseStatus case.status
    end_time := none }

/-- The clock-free value of one converted Test. -/
def pureTest (test : TestRecord) : GTest :=
  { test_name := test.name
    test_description := test.description
    message := test.text
    cases := if test.result ≠ 0 then test.cases.map pureCase else []
    end_time := none }

/-- The clock-free test list of one Phase. -/
def pureTests (entries : List (String × List TestRecord)) : List GTest :=
  entries.foldl
    (fun acc e => availableTestNames.foldl (fun a _ => a ++ e.2.map pureTest) acc)
    []

/-- The clock-free value of one Phase. -/
def purePhase (obj_type : String) (entries : List (String × List TestRecord)) :
    GPhase :=
  { start_time := none
    phase_name := obj_type
    tests := pureTests entries
    end_time := none }

/-- The clock-free value of the whole converted Report. -/
def pureReport (json : RawTree) : GReport :=
  { start_time := none
    testbed_name := "rnaget-compliance-suite"
    platform_name := json.server_name
    input_parameters := [("base_url", json.base_url)]
    phases := [purePhase "projects" json.test_results.projects,
               purePhase "studies" json.test_results.studies,
               purePhase "expressions" json.test_results.expressions,
               purePhase "continuous" json.test_results.continuous]
    end_time := none
    finalized := true }

lemma foldl_addCase_strip (clock : Clock) :
    ∀ (cs : List CaseRecord) (st : List GCase × Nat),
      ((cs.foldl (addCase clock) st).1).map stripCase
        = st.1.map stripCase ++ cs.map pureCase := by
  intro cs
  induction cs with
  | nil => intro st; simp
  | cons c cs ih =>
    intro st
    rw [List.foldl_cons, ih]
    simp [addCase, stripCase, pureCase]

lemma stripTest_convertTest (clock : Clock) (test : TestRecord) (tick : Nat) :
    stripTest (convertTest clock test tick).1 = pureTest test := by
  by_cases h : test.result = 0 <;>
    simp [convertTest, stripTest, pureTest, h, foldl_addCase_strip]

lemma foldl_addTest_strip (clock : Clock) :
    ∀ (ts : List TestRecord) (st : List GTest × Nat),
      ((ts.foldl (addTest clock) st).1).map stripTest
        = st.1.map stripTest ++ ts.map pureTest := by
  intro ts
  induction ts with
  | nil => intro st; simp
  | cons t ts ih =>
    intro st
    rw [List.foldl_cons, ih]
    simp [addTest, stripTest_convertTest]

lemma foldl_const_append {β γ : Type} (P : List β) :
    ∀ (xs : List γ) (A : List β),
      xs.foldl (fun l _ => l ++ P) A = A ++ xs.foldl (fun l _ => l ++ P) [] := by
  intro xs
  induction xs with
  | nil => intro A; simp
  | cons x xs ih =>
    intro A
    rw [List.foldl_cons, List.foldl_cons, ih (A ++ P), ih ([] ++ P)]
    simp

lemma foldl_names_strip (clock : Clock) (ts : List TestRecord) :
    ∀ (names : List String) (st : List GTest × Nat),
      ((names.foldl (fun a _ => ts.foldl (addTest clock) a) st).1).map stripTest
        = st.1.map stripTest ++ names.foldl (fun l _ => l ++ ts.map pureTest) [] := by
  intro names
  induction names with
  | nil => intro st; simp
  | cons n ns ih =>
    intro st
    rw [List.foldl_cons, List.foldl_cons, ih, foldl_addTest_strip,
        foldl_const_append (ts.map pureTest) ns ([] ++ ts.map pureTest)]
    simp

lemma pureTests_fold_pull :
    ∀ (entries : List (String × List TestRecord)) (A : List GTest),
      entries.foldl
        (fun acc e => availableTestNames.foldl (fun a _ => a ++ e.2.map pureTest) acc)
        A = A ++ pureTests entries := by
  intro entries
  induction entries with
  | nil => intro A; simp [pureTests]
  | cons e rest ih =>
    intro A
    rw [List.foldl_cons, ih, foldl_const_append (e.2.map pureTest) availableTestNames A]
    have h2 : pureTests (e :: rest)
        = availableTestNames.foldl (fun a _ => a ++ e.2.map pureTest) [] ++ pureTests rest := by
      have h0 : pureTests (e :: rest)
          = rest.foldl
              (fun acc e2 => availableTestNames.foldl (fun a _ => a ++ e2.2.map pureTest) acc)
              (availableTestNames.foldl (fun a _ => a ++ e.2.map pureTest) []) := rfl
      rw [h0, ih]
    rw [h2, List.append_assoc]

lemma foldl_entries_strip (clock : Clock) :
    ∀ (entries : List (String × List TestRecord)) (st : List GTest × Nat),
      ((entries.foldl
          (fun acc e => availableTestNames.foldl (fun a _ => e.2.foldl (addTest clock) a) acc)
          st).1).map stripTest
        = st.1.map stripTest ++ pureTests entries := by
  intro entries
  induction entries with
  | nil => intro st; simp [pureTests]
  | cons e rest ih =>
    intro st
    rw [List.foldl_cons, ih, foldl_names_strip]
    have h2 : pureTests (e :: rest)
        = availableTestNames.foldl (fun l _ => l ++ e.2.map pureTest) [] ++ pureTests rest := by
      have h0 : pureTests (e :: rest)
          = rest.foldl
              (fun acc e2 => availableTestNames.foldl (fun a _ => a ++ e2.2.map pureTest) acc)
              (availableTestNames.foldl (fun a _ => a ++ e.2.map pureTest) []) := rfl
      rw [h0, pureTests_fold_pull]
    rw [h2, List.append_assoc]

lemma stripPhase_addPhase (clock : Clock) (st : List GPhase × Nat)
    (obj_type : String) (entries : List (String × List TestRecord)) :
    ((addPhase clock st obj_type entries).1).map stripPhase
      = st.1.map stripPhase ++ [purePhase obj_type entries] := by
  simp [addPhase, stripPhase, purePhase, foldl_entries_strip]

lemma stripReport_convert (clock : Clock) (json : RawTree) :
    stripReport (convert_report_format clock json) = pureReport json := by
  simp [convert_report_format, stripReport, pureReport, stripPhase_addPhase]

/-- Claim C7: converting the same raw tree under two different clocks
(two separate runs) yields reports that agree on everything except the
timestamps: stripping the timestamps at every level makes them equal. -/
theorem convert_idempotent_mod_timestamps (c1 c2 : Clock) (json : RawTree) :
    stripReport (convert_report_format c1 json)
      = stripReport (convert_report_format c2 json) := by
  rw [stripReport_convert, stripReport_convert]

/-- Claim C10: the converter never reads `high_level_summary`: two trees
agreeing on `server_name`, `base_url` and `test_results` but with
arbitrary summaries convert to identical reports (timestamps aside). -/
theorem convert_ignores_high_level_summary (c1 c2 : Clock) (t1 t2 : RawTree)
    (hs : t1.server_name = t2.server_name) (hb : t1.base_url = t2.base_url)
    (ht : t1.test_results = t2.test_results) :
    stripReport (convert_report_format c1 t1)
      = stripReport (convert_report_format c2 t2) := by
  rw [stripReport_convert, stripReport_convert]
  simp [pureReport, hs, hb, ht]

/-- `cexTree1` with a different (nonempty, failing) high-level summary. -/
def alteredSummaryTree : RawTree :=
  { cexTree1 with
      high_level_summary := [("project_get", { result := -1, name := "project_get" })] }

/-- Witness for claim C10 at concrete trees differing only in their
`high_level_summary`. -/
theorem convert_ignores_high_level_summary_witness :
    stripReport (convert_report_format clock0 cexTree1)
      = stripReport (convert_report_format clock0 alteredSummaryTree) :=
  convert_ignores_high_level_summary clock0 clock0 cexTree1 alteredSummaryTree
    rfl rfl rfl

/-- Claim C4 (amended): per converted TestRecord, the CaseRecords are
converted (audit entries carried as log messages inside `pureCase`)
exactly when `result != 0`, i.e. when the test status is not skip; a
skipped test contributes a Test with no Cases, while a passing test
(result 1) does get its Cases converted. -/
theorem convertTest_cases_iff_not_skip (clock : Clock) (test : TestRecord)
    (tick : Nat) :
    ((convertTest clock test tick).1).cases.map stripCase
      = if test.result = 0 then [] else test.cases.map pureCase := by
  by_cases h : test.result = 0 <;>
    simp [convertTest, h, foldl_addCase_strip]

/-- A passing test record (result 1) that still carries one CaseRecord. -/
def passTestRecord : TestRecord :=
  { name := "Project Get"
    description := "Requests the project endpoint by id"
    text := "PASSED"
    result := 1
    parents := ["project_get"]
    cases := [{ name := "status code"
                description := "response status code is 200"
                summary := "got 200"
                status := 1
                audit := ["GET /projects/abc", "response: 200"] }] }

/-- A raw tree with a single passing project test that has one case. -/
def passTree : RawTree :=
  { server_name := "Server A"
    base_url := "http://localhost:5000/"
    test_results :=
      { projects := [("o1", [passTestRecord])]
        studies := []
        expressions := []
        continuous := [] }
    high_level_summary := [] }

/-- Claim C4 counterexample: a TestRecord with status pass (result 1)
does NOT contribute a Test with no Cases: its CaseRecord is converted,
both at the single-test level and through the full report conversion. -/
theorem convert_pass_test_has_cases_cex :
    passTestRecord.result = 1 ∧
    ((convertTest clock0 passTestRecord 0).1).cases ≠ [] ∧
    (convert_report_format clock0 passTree).phases.map
      (fun ph => ph.tests.map (fun t => t.cases.length))
      = [List.replicate 11 1, [], [], []] := by
  refine ⟨rfl, by decide, by decide⟩

/-- Python `str.isdigit()` on the uptime option: true iff the string is
nonempty and every character is a digit. -/
def pyIsdigit (s : String) : Bool := !s.isEmpty && s.all Char.isDigit

/-- Observable actions of one `report` invocation, in order. -/
inductive CliEvent where
  | logInfo (msg : String)
  | configParsed
  | configValidated
  | outputDirCreated
  | testsRun
  | resultsWritten
  | tarballCreated
  | htmlRendered
  | serverStarted
  | usagePrinted
  | errorPrinted (msg : String)
deriving DecidableEq, Repr

/-- The exception classes caught by the handlers at cli.py:202-216. -/
inductive PyExc where
  | argumentException (msg : String)
  | userConfigException (msg : String)
  | fileNotFoundError (msg : String)
deriving DecidableEq, Repr

/-- External collaborators of `report` (config parser, filesystem),
abstracted as oracles: the spec treats configuration loading and
directory bookkeeping as external interfaces. -/
structure CliEnv where
  parseConfig : Except String Unit
  validateConfig : Except String Unit
  baseDirExists : Bool
  outputDirExists : Bool
  tarExists : Bool
deriving Repr

/-- cli.py:102-198, the body of the `try` block of `report`: the
events it emits, and the exception it raises, if any.  Argument checks
(missing user config at cli.py:110, non-digit uptime at cli.py:120)
come before config parsing, filesystem work and test execution. -/
def reportBody (env : CliEnv) (user_config : Option String) (uptime : String)
    (serve no_tar force : Bool) : List CliEvent × Option PyExc :=
  let evs := [CliEvent.logInfo "starting RNAGet compliance testing"]
  match user_config with
  | none =>
      (evs, some (PyExc.argumentException
        "No user config file provided. Specify path to yaml file with -c"))
  | some path =>
      let evs := evs ++ [CliEvent.logInfo ("parsing config file: " ++ path)]
      if !(pyIsdigit uptime) then
        (evs, some (PyExc.argumentException "Server uptime is not a valid integer."))
      else
        match env.parseConfig with
        | Except.error m => (evs, some (PyExc.userConfigException m))
        | Except.ok _ =>
            let evs := evs ++ [CliEvent.configParsed]
            match env.validateConfig with
            | Except.error m => (evs, some (PyExc.userConfigException m))
            | Except.ok _ =>
                let evs := evs ++ [CliEvent.configValidated]
                if !env.baseDirExists then
                  (evs, some (PyExc.fileNotFoundError
                    "cannot create output directory, base directory does not exist"))
                else if !force && (env.outputDirExists || env.tarExists) then
                  (evs, some (PyExc.argumentException
                    "cannot create output directory, directory/archive already exists"))
                else
                  (evs ++ [CliEvent.outputDirCreated, CliEvent.testsRun,
                           CliEvent.resultsWritten]
                       ++ (if !no_tar then [CliEvent.tarballCreated] else [])
                       ++ [CliEvent.htmlRendered]
                       ++ (if serve then [CliEvent.serverStarted] else []),
                   none)

/-- The message each handler at cli.py:202-216 prints for its class. -/
def handlerMessage (e : PyExc) : String :=
  match e with
  | PyExc.argumentException m => m
  | PyExc.userConfigException m => "Error with YAML file: " ++ m
  | PyExc.fileNotFoundError m => m

/-- cli.py:86-216 `report`: run the body; a caught exception prints the
usage text and the message and exits with code 1, otherwise the process
completes with exit code 0. -/
def report (env : CliEnv) (user_config : Option String) (uptime : String)
    (serve no_tar force : Bool) : List CliEvent × Nat :=
  let r := reportBody env user_config uptime serve no_tar force
  match r.2 with
  | none => (r.1, 0)
  | some e =>
      (r.1 ++ [CliEvent.usagePrinted, CliEvent.errorPrinted (handlerMessage e)], 1)

/-- Claim C8: when no user config is given, or the uptime option is not
a digit string, `report` prints the usage message, exits with code 1,
and never reaches test execution (no network activity). -/
theorem report_setup_error_exits_before_tests
    (env : CliEnv) (user_config : Option String) (uptime : String)
    (serve no_tar force : Bool)
    (h : user_config = none ∨ pyIsdigit uptime = false) :
    (report env user_config uptime serve no_tar force).2 = 1 ∧
    CliEvent.usagePrinted ∈ (report env user_config uptime serve no_tar force).1 ∧
    CliEvent.testsRun ∉ (report env user_config uptime serve no_tar force).1 := by
  rcases h with h | h
  · subst h
    simp [report, reportBody]
  · cases user_config with
    | none => simp [report, reportBody]
    | some path => simp [report, reportBody, h]

/-- A healthy environment: the config parses and validates, the base
directory exists and the output path is free. -/
def okEnv : CliEnv :=
  { parseConfig := Except.ok ()
    validateConfig := Except.ok ()
    baseDirExists := true
    outputDirExists := false
    tarExists := false }

/-- Witness for claim C8: a concrete invocation with no user config. -/
theorem report_setup_error_exits_before_tests_witness :
    (report okEnv none "3600" false false false).2 = 1 ∧
    CliEvent.usagePrinted ∈ (report okEnv none "3600" false false false).1 ∧
    CliEvent.testsRun ∉ (report okEnv none "3600" false false false).1 :=
  report_setup_error_exits_before_tests okEnv none "3600" false false false
    (Or.inl rfl)
